import Mathlib

/-!
Verification of the matcher/dispatcher core of an in-process HTTP
interception engine (a `responses`-style mock for an HTTP client).

The Python source is embedded shallowly: the mutable `RequestsMock`
object becomes an explicit `MockState` record threaded through the
operations; the in-place iterator held by a registered expectation
becomes the list of its remaining responses; exceptions become
`Except` values.  External collaborators (the HTTP client's prepared
request, the regex engine applied to an escaped pattern, the stdlib
query-string helpers) are modelled at the level the core observes them.
-/

namespace Responses

/-- Characters of a list up to (and excluding) the first occurrence of
the separator.  Character-level model of the Python expression
`s.split(sep, 1)[0]`. -/
def splitHeadChars (sep : Char) : List Char → List Char
  | [] => []
  | c :: cs => if c == sep then [] else c :: splitHeadChars sep cs

/-- Models `url.split('?', 1)[0]`: the URL with everything from the
first question mark onward removed. -/
def stripQS (s : String) : String :=
  ⟨splitHeadChars '?' s.toList⟩

/-- Replace the first occurrence of the character c by the list repl.
Character-level model of `url.replace('?', '/?', 1)`. -/
def replaceFirstChars (c : Char) (repl : List Char) : List Char → List Char
  | [] => []
  | x :: xs => if x == c then repl ++ xs else x :: replaceFirstChars c repl xs

/-- Models `url.replace(c, repl, 1)`: replace only the first occurrence. -/
def replaceFirst (s : String) (c : Char) (repl : String) : String :=
  ⟨replaceFirstChars c repl.toList s.toList⟩

/-- Anchored match of a literal pattern against a subject, character by
character.  Models `re.match(re.escape(pat), subject)`: escaping makes
every character of the pattern literal and `re.match` anchors the
pattern at the start of the subject, so the match succeeds exactly when
the pattern is consumed as an initial segment of the subject. -/
def matchLiteralAnchored : List Char → List Char → Bool
  | [], _ => true
  | _ :: _, [] => false
  | p :: ps, u :: us => p == u && matchLiteralAnchored ps us

/-- Truthiness of `re.match(re.escape(pat), subject)`. -/
def reMatchEscaped (pat subject : String) : Bool :=
  matchLiteralAnchored pat.toList subject.toList

/-- The prepared request handed to the installed transport hook by the
host HTTP client: method, full URL, headers and body, as the core reads
them.  The body is the byte payload, modelled as a string (empty when
the request carries none). -/
structure PreparedRequest where
  method : String
  url : String
  headers : List (String × String)
  body : String
deriving DecidableEq

/-- Models the stdlib query-string helper `parse_qsl` as the core uses
it: split on the pair separators, keep `name=value` pairs with a
nonempty value (blank values are dropped), the value keeping any later
equal signs.  Percent-decoding of the stdlib helper is not modelled. -/
def parse_qsl (qs : String) : List (String × String) :=
  ((qs.splitOn "&").flatMap (fun s => s.splitOn ";")).filterMap (fun pair =>
    match pair.splitOn "=" with
    | [] => Option.none
    | [_] => Option.none
    | k :: v =>
      let value := String.intercalate "=" v
      if value == "" then Option.none else Option.some (k, value))

/-- Models the query component produced by the stdlib `urlparse`: the
part of the URL after the first question mark, the fragment (from the
first hash) having been removed first. -/
def urlQuery (url : String) : String :=
  let nofrag : String := ⟨splitHeadChars '#' url.toList⟩
  match nofrag.splitOn "?" with
  | [] => ""
  | [_] => ""
  | _ :: rest => String.intercalate "?" rest

/-- Simple object used to pass request info to side_effect callbacks
(class `Request` of the source).  `params` and `data` model the dicts
`dict(parse_qsl(...))` as association lists in insertion order. -/
structure Request where
  method : String
  url : String
  headers : List (String × String)
  params : List (String × String)
  data : List (String × String)

/-- `Request._from_prepared_request`: build the snapshot passed to a
callback from the live prepared request. -/
def Request._from_prepared_request (request : PreparedRequest) : Request :=
  { method := request.method
    url := request.url
    headers := request.headers
    params := parse_qsl (urlQuery request.url)
    data := parse_qsl request.body }

/-- A registered logical response (class `Response` of the source).
The constructor encodes a textual body to bytes; the stored byte
payload is modelled as a string. -/
structure Response where
  body : String
  status : Nat
  adding_headers : Option (List (String × String))
  stream : Bool
  content_type : String
deriving DecidableEq

/-- The transport-shaped response object built from a `Response`
(the urllib3 `HTTPResponse` the source wraps), restricted to the
structure the core fills in: status, body and headers. -/
structure HTTPResp where
  status : Nat
  body : String
  headers : List (String × String)
deriving DecidableEq

/-- Insert a key/value into an association list with Python dict update
semantics: an existing key is overwritten in place, a new key is
appended at the end. -/
def dictInsert (d : List (String × String)) (k v : String) : List (String × String) :=
  if d.any (fun p => p.1 == k) then
    d.map (fun p => if p.1 == k then (k, v) else p)
  else d ++ [(k, v)]

/-- Models `dict.update`: fold the updates into the base dict. -/
def dictUpdate (d u : List (String × String)) : List (String × String) :=
  u.foldl (fun acc p => dictInsert acc p.1 p.2) d

/-- `Response._as_http_response`: a base Content-Type header merged
with the extra headers (extra headers override the base on collision),
with the stored status and body. -/
def Response._as_http_response (r : Response) : HTTPResp :=
  let headers := [("Content-Type", r.content_type)]
  let headers :=
    match r.adding_headers with
    | Option.none => headers
    | Option.some hs => dictUpdate headers hs
  { status := r.status, body := r.body, headers := headers }

/-- Outcome of invoking a side_effect callback: it either returns a
value (a response, or none) or raises. -/
inductive CbResult where
  | ret (response : Option Response)
  | raises

/-- The side_effect slot of a registered expectation.  A sequence
passed to `add` is turned into an iterator at registration; the
iterator's state is modelled by the list of remaining responses. -/
inductive SideEffect where
  | none
  | callback (f : Request → CbResult)
  | seq (remaining : List Response)

/-- One entry of the registry `self._urls`: the dict built by `add`. -/
structure Expectation where
  url : String
  method : String
  match_querystring : Bool
  side_effect : SideEffect
  response : Response

/-- What the Call Recorder stores in the response slot of a call: the
built transport response, or the connection-failure value (recorded by
its message). -/
inductive CallResult where
  | resp (r : HTTPResp)
  | err (message : String)
deriving DecidableEq

/-- A recorded (request, response-or-error) pair (`Call` namedtuple). -/
structure Call where
  request : PreparedRequest
  response : CallResult
deriving DecidableEq

/-- The state of a `RequestsMock` object: the ordered registry
`self._urls`, the Call Recorder `self._calls`, and whether the
transport hook (the patcher installed by `start`) is active. -/
structure MockState where
  urls : List Expectation
  calls : List Call
  hookInstalled : Bool

/-- `RequestsMock.reset`: clear the registry and the Call Recorder. -/
def reset (s : MockState) : MockState :=
  { s with urls := [], calls := [] }

/-- `RequestsMock.add`: build the response, normalize a bare-host URL
(exactly two '/' characters) by appending a trailing slash — or, when
query-string matching is requested, by inserting one before the first
'?' — and append the expectation to the registry. -/
def add (s : MockState) (method url : String) (match_querystring : Bool)
    (side_effect : SideEffect) (response : Response) : MockState :=
  let url :=
    if url.toList.count '/' == 2 then
      if match_querystring then replaceFirst url '?' "/?" else url ++ "/"
    else url
  let m : Expectation :=
    { url := url
      method := method
      match_querystring := match_querystring
      side_effect := side_effect
      response := response }
  { s with urls := s.urls ++ [m] }

/-- The loop-body condition of `RequestsMock._find_match` for one
registry entry: the request's method equals the entry's method and the
URL check for the entry's query-string mode succeeds. -/
def expMatches (m : Expectation) (req : PreparedRequest) : Bool :=
  req.method == m.method &&
  (if m.match_querystring then reMatchEscaped m.url req.url
   else m.url == stripQS req.url)

/-- The scan of `RequestsMock._find_match`: first registry entry (in
registration order) whose loop-body condition holds, together with its
position — the position records which entry the dispatcher will update
in place when a response sequence advances. -/
def findFirstMatch : List Expectation → PreparedRequest → Option (Nat × Expectation)
  | [], _ => Option.none
  | m :: rest, req =>
    if expMatches m req then Option.some (0, m)
    else (findFirstMatch rest req).map (fun p => (p.1 + 1, p.2))

/-- `RequestsMock._find_match`: the first matching expectation, or
none. -/
def _find_match (urls : List Expectation) (req : PreparedRequest) : Option Expectation :=
  (findFirstMatch urls req).map (fun p => p.2)

/-- Failures that can escape a dispatch: the connection-failure signal
of the no-match path, the exhaustion signal of a finite response
sequence (`StopIteration` from the iterator), and a failure raised
inside a callback. -/
inductive PyErr where
  | connectionError (message : String)
  | stopIteration
  | callbackRaised
deriving DecidableEq

/-- `RequestsMock._get_response`: resolve a matched expectation to a
response, or none.  A callback receives the snapshot of the prepared
request; a sequence yields its next remaining response and the
expectation with its iterator advanced, failing with the exhaustion
signal when empty; with no side_effect the stored fixed response is
returned.  The returned expectation is the matched entry after the
in-place iterator update. -/
def _get_response (m : Option Expectation) (req : PreparedRequest) :
    Except PyErr (Option Response) × Option Expectation :=
  match m with
  | Option.none => (Except.ok Option.none, Option.none)
  | Option.some e =>
    match e.side_effect with
    | SideEffect.callback f =>
      match f (Request._from_prepared_request req) with
      | CbResult.ret r => (Except.ok r, Option.some e)
      | CbResult.raises => (Except.error PyErr.callbackRaised, Option.some e)
    | SideEffect.seq [] => (Except.error PyErr.stopIteration, Option.some e)
    | SideEffect.seq (r :: rest) =>
      (Except.ok (Option.some r), Option.some { e with side_effect := SideEffect.seq rest })
    | SideEffect.none => (Except.ok (Option.some e.response), Option.some e)

/-- Write the matched entry (after its in-place update) back into the
registry at its position. -/
def setMatched (urls : List Expectation) (i : Nat) (m : Option Expectation) :
    List Expectation :=
  match m with
  | Option.none => urls
  | Option.some e => urls.set i e

/-- `RequestsMock._on_request`: the dispatch.  Find a match, resolve
a response; a failure raised during resolution propagates unchanged,
before any recording.  When no response was produced, record the
connection-failure call and fail with the connection-failure signal
carrying the request URL; otherwise build the transport response,
record the call, and return it. -/
def _on_request (s : MockState) (req : PreparedRequest) :
    MockState × Except PyErr HTTPResp :=
  match findFirstMatch s.urls req with
  | Option.none =>
    let msg := "Connection refused: " ++ req.url
    ({ s with calls := s.calls ++ [{ request := req, response := CallResult.err msg }] },
     Except.error (PyErr.connectionError msg))
  | Option.some (i, e) =>
    match _get_response (Option.some e) req with
    | (Except.error err, m') =>
      ({ s with urls := setMatched s.urls i m' }, Except.error err)
    | (Except.ok Option.none, m') =>
      let msg := "Connection refused: " ++ req.url
      let s' : MockState :=
        { s with
          urls := setMatched s.urls i m'
          calls := s.calls ++ [{ request := req, response := CallResult.err msg }] }
      (s', Except.error (PyErr.connectionError msg))
    | (Except.ok (Option.some r), m') =>
      let resp := Response._as_http_response r
      let s' : MockState :=
        { s with
          urls := setMatched s.urls i m'
          calls := s.calls ++ [{ request := req, response := CallResult.resp resp }] }
      (s', Except.ok resp)

/-- Sequential dispatches: the state after each request is fed to the
next, and the outcomes are collected in dispatch order. -/
def runDispatches : MockState → List PreparedRequest → MockState × List (Except PyErr HTTPResp)
  | s, [] => (s, [])
  | s, r :: rs =>
    let p := _on_request s r
    let q := runDispatches p.1 rs
    (q.1, p.2 :: q.2)

/-- `RequestsMock.start`: install the transport hook. -/
def start (s : MockState) : MockState :=
  { s with hookInstalled := true }

/-- `RequestsMock.stop`: uninstall the transport hook. -/
def stop (s : MockState) : MockState :=
  { s with hookInstalled := false }

/-- `RequestsMock.activate`: run the wrapped test body after `start`;
on every exit path — the body returning normally or raising, both
modelled by the `Except` outcome — `stop` then `reset` run before the
body's outcome is propagated (the `try`/`finally` of the source). -/
def activate {ε α : Type} (func : MockState → MockState × Except ε α)
    (s : MockState) : MockState × Except ε α :=
  let p := func (start s)
  (reset (stop p.1), p.2)

/-- A dispatch outcome that is a propagated exception from resolution
(sequence exhaustion or a callback raising), as opposed to a returned
response or the recorded no-match connection failure. -/
def isPropagated : Except PyErr HTTPResp → Bool
  | Except.error PyErr.stopIteration => true
  | Except.error PyErr.callbackRaised => true
  | _ => false

/-! ### Concrete registry states and requests used to instantiate the
theorems on executable inputs -/

/-- The response built by `add` when no body/status/headers are given:
the defaults of the `Response` constructor. -/
def respDefault : Response := ⟨"", 200, Option.none, false, "text/plain"⟩

/-- A fresh mock: empty registry, empty recorder, hook uninstalled. -/
def emptyMock : MockState := ⟨[], [], false⟩

def respA : Response := ⟨"one", 200, Option.none, false, "text/plain"⟩

def respB : Response := ⟨"two", 201, Option.none, false, "text/plain"⟩

def eC1pre : Expectation := ⟨"http://other.test/", "GET", false, SideEffect.none, respDefault⟩

def eC1A : Expectation := ⟨"http://a.test/", "GET", false, SideEffect.none, respA⟩

def eC1B : Expectation := ⟨"http://a.test/", "GET", false, SideEffect.none, respB⟩

def reqC1 : PreparedRequest := ⟨"GET", "http://a.test/", [], ""⟩

def reqC2 : PreparedRequest := ⟨"GET", "http://nowhere.test/", [], ""⟩

def eC3 : Expectation := ⟨"http://q.test/?a=1", "GET", true, SideEffect.none, respDefault⟩

def reqC3 : PreparedRequest := ⟨"GET", "http://q.test/?a=1&b=2", [], ""⟩

def eC4 : Expectation := ⟨"http://seq.test/", "GET", false, SideEffect.seq [respA, respB], respDefault⟩

def reqC4 : PreparedRequest := ⟨"GET", "http://seq.test/", [], ""⟩

def eC7 : Expectation := ⟨"http://x.test/", "GET", false, SideEffect.seq [], respDefault⟩

def reqC7 : PreparedRequest := ⟨"GET", "http://x.test/", [], ""⟩

def eC8 : Expectation := ⟨"http://fixed.test/", "GET", false, SideEffect.none, ⟨"hello", 200, Option.none, false, "text/plain"⟩⟩

def reqC8 : PreparedRequest := ⟨"GET", "http://fixed.test/", [], ""⟩

/-- A registered callback that returns no response. -/
def fC9 : Request → CbResult := fun _ => CbResult.ret Option.none

def eC9 : Expectation := ⟨"http://cb.test/", "GET", false, SideEffect.callback fC9, respDefault⟩

def reqC9 : PreparedRequest := ⟨"GET", "http://cb.test/", [], ""⟩

/-! ### Helper lemmas about the character-level URL operations -/

theorem string_mk_toList (s : String) : (⟨s.toList⟩ : String) = s := by
  cases s
  rfl

theorem splitHeadChars_eq_takeWhile (sep : Char) (l : List Char) :
    splitHeadChars sep l = l.takeWhile (fun c => c != sep) := by
  induction l with
  | nil => rfl
  | cons c cs ih =>
    by_cases h : c = sep
    · simp [splitHeadChars, List.takeWhile_cons, h]
    · simp [splitHeadChars, List.takeWhile_cons, h, ih]

theorem splitHeadChars_of_not_mem (sep : Char) (l : List Char) (h : sep ∉ l) :
    splitHeadChars sep l = l := by
  induction l with
  | nil => rfl
  | cons c cs ih =>
    simp only [List.mem_cons, not_or] at h
    have hc : ¬ c = sep := fun hc => h.1 hc.symm
    simp [splitHeadChars, hc, ih h.2]

theorem matchLiteralAnchored_iff (p : List Char) :
    ∀ u : List Char, matchLiteralAnchored p u = true ↔ p <+: u := by
  induction p with
  | nil => intro u; simp [matchLiteralAnchored]
  | cons a ps ih =>
    intro u
    cases u with
    | nil => simp [matchLiteralAnchored]
    | cons b us =>
      simp [matchLiteralAnchored, ih, List.cons_prefix_cons]

/-! ### Helper lemmas about the matcher scan -/

theorem findFirstMatch_eq_none_iff (urls : List Expectation) (req : PreparedRequest) :
    findFirstMatch urls req = Option.none ↔ ∀ e ∈ urls, expMatches e req = false := by
  induction urls with
  | nil => simp [findFirstMatch]
  | cons m rest ih =>
    by_cases h : expMatches m req
    · simp [findFirstMatch, h]
    · have h' : expMatches m req = false := by simpa using h
      simp [findFirstMatch, h', ih]

theorem findFirstMatch_sound (urls : List Expectation) (req : PreparedRequest)
    (i : Nat) (e : Expectation) (h : findFirstMatch urls req = Option.some (i, e)) :
    urls[i]? = Option.some e ∧ expMatches e req = true := by
  induction urls generalizing i with
  | nil => simp [findFirstMatch] at h
  | cons m rest ih =>
    by_cases hm : expMatches m req
    · simp [findFirstMatch, hm] at h
      obtain ⟨hi, he⟩ := h
      subst hi; subst he
      exact ⟨by simp, hm⟩
    · cases hrec : findFirstMatch rest req with
      | none => simp [findFirstMatch, hm, hrec] at h
      | some p =>
        obtain ⟨j, e'⟩ := p
        simp [findFirstMatch, hm, hrec] at h
        obtain ⟨hi, he⟩ := h
        subst he
        cases i with
        | zero => omega
        | succ k =>
          have hk : j = k := by omega
          subst hk
          simpa using ih _ hrec

theorem findFirstMatch_append_first (pre post : List Expectation) (A : Expectation)
    (req : PreparedRequest) (hpre : ∀ e ∈ pre, expMatches e req = false)
    (hA : expMatches A req = true) :
    findFirstMatch (pre ++ A :: post) req = Option.some (pre.length, A) := by
  induction pre with
  | nil => simp [findFirstMatch, hA]
  | cons m rest ih =>
    have hm : expMatches m req = false := hpre m (by simp)
    have hrest : ∀ e ∈ rest, expMatches e req = false := fun e he => hpre e (by simp [he])
    simp [findFirstMatch, hm, ih hrest]

theorem list_set_self {α : Type} (l : List α) (i : Nat) (a : α)
    (h : l[i]? = Option.some a) : l.set i a = l := by
  induction l generalizing i with
  | nil => simp at h
  | cons x xs ih =>
    cases i with
    | zero => simp at h; simp [h]
    | succ k =>
      simp at h
      simp [List.set, ih k h]

/-- The matcher's loop-body condition reads only the pattern fields of
an expectation, so advancing a response sequence does not change
whether the expectation matches. -/
theorem expMatches_update_side_effect (e : Expectation) (x : SideEffect)
    (req : PreparedRequest) :
    expMatches { e with side_effect := x } req = expMatches e req := rfl

/-! ### Single-dispatch characterizations, one per resolution path -/

theorem on_request_no_match (s : MockState) (req : PreparedRequest)
    (h : findFirstMatch s.urls req = Option.none) :
    _on_request s req =
      ({ s with calls := s.calls ++
          [{ request := req, response := CallResult.err ("Connection refused: " ++ req.url) }] },
       Except.error (PyErr.connectionError ("Connection refused: " ++ req.url))) := by
  simp [_on_request, h]

theorem on_request_fixed (s : MockState) (req : PreparedRequest) (i : Nat) (e : Expectation)
    (hf : findFirstMatch s.urls req = Option.some (i, e))
    (hn : e.side_effect = SideEffect.none) :
    _on_request s req =
      ({ s with calls := s.calls ++
          [{ request := req, response := CallResult.resp (Response._as_http_response e.response) }] },
       Except.ok (Response._as_http_response e.response)) := by
  have hget := (findFirstMatch_sound s.urls req i e hf).1
  simp [_on_request, hf, _get_response, hn, setMatched, list_set_self _ _ _ hget]

theorem on_request_seq_cons (s : MockState) (req : PreparedRequest) (i : Nat) (e : Expectation)
    (r : Response) (rest : List Response)
    (hf : findFirstMatch s.urls req = Option.some (i, e))
    (hs : e.side_effect = SideEffect.seq (r :: rest)) :
    _on_request s req =
      ({ s with
         urls := s.urls.set i { e with side_effect := SideEffect.seq rest }
         calls := s.calls ++
          [{ request := req, response := CallResult.resp (Response._as_http_response r) }] },
       Except.ok (Response._as_http_response r)) := by
  simp [_on_request, hf, _get_response, hs, setMatched]

theorem on_request_seq_nil (s : MockState) (req : PreparedRequest) (i : Nat) (e : Expectation)
    (hf : findFirstMatch s.urls req = Option.some (i, e))
    (hs : e.side_effect = SideEffect.seq []) :
    _on_request s req = (s, Except.error PyErr.stopIteration) := by
  have hget := (findFirstMatch_sound s.urls req i e hf).1
  simp [_on_request, hf, _get_response, hs, setMatched, list_set_self _ _ _ hget]

theorem on_request_cb_some (s : MockState) (req : PreparedRequest) (i : Nat) (e : Expectation)
    (f : Request → CbResult) (r : Response)
    (hf : findFirstMatch s.urls req = Option.some (i, e))
    (hc : e.side_effect = SideEffect.callback f)
    (hr : f (Request._from_prepared_request req) = CbResult.ret (Option.some r)) :
    _on_request s req =
      ({ s with calls := s.calls ++
          [{ request := req, response := CallResult.resp (Response._as_http_response r) }] },
       Except.ok (Response._as_http_response r)) := by
  have hget := (findFirstMatch_sound s.urls req i e hf).1
  simp [_on_request, hf, _get_response, hc, hr, setMatched, list_set_self _ _ _ hget]

theorem on_request_cb_none (s : MockState) (req : PreparedRequest) (i : Nat) (e : Expectation)
    (f : Request → CbResult)
    (hf : findFirstMatch s.urls req = Option.some (i, e))
    (hc : e.side_effect = SideEffect.callback f)
    (hr : f (Request._from_prepared_request req) = CbResult.ret Option.none) :
    _on_request s req =
      ({ s with calls := s.calls ++
          [{ request := req, response := CallResult.err ("Connection refused: " ++ req.url) }] },
       Except.error (PyErr.connectionError ("Connection refused: " ++ req.url))) := by
  have hget := (findFirstMatch_sound s.urls req i e hf).1
  simp [_on_request, hf, _get_response, hc, hr, setMatched, list_set_self _ _ _ hget]

theorem on_request_cb_raises (s : MockState) (req : PreparedRequest) (i : Nat) (e : Expectation)
    (f : Request → CbResult)
    (hf : findFirstMatch s.urls req = Option.some (i, e))
    (hc : e.side_effect = SideEffect.callback f)
    (hr : f (Request._from_prepared_request req) = CbResult.raises) :
    _on_request s req = (s, Except.error PyErr.callbackRaised) := by
  have hget := (findFirstMatch_sound s.urls req i e hf).1
  simp [_on_request, hf, _get_response, hc, hr, setMatched, list_set_self _ _ _ hget]

/-- Any dispatch whose outcome is not a propagated resolution failure
appends exactly one call, and that call carries the dispatched
request. -/
theorem dispatch_records (s : MockState) (req : PreparedRequest)
    (h : isPropagated (_on_request s req).2 = false) :
    ∃ c : Call, (_on_request s req).1.calls = s.calls ++ [c] ∧ c.request = req := by
  cases hf : findFirstMatch s.urls req with
  | none =>
    rw [on_request_no_match s req hf]
    exact ⟨_, rfl, rfl⟩
  | some p =>
    obtain ⟨i, e⟩ := p
    cases hse : e.side_effect with
    | none =>
      rw [on_request_fixed s req i e hf hse]
      exact ⟨_, rfl, rfl⟩
    | callback f =>
      cases hr : f (Request._from_prepared_request req) with
      | ret ro =>
        cases ro with
        | none =>
          rw [on_request_cb_none s req i e f hf hse hr]
          exact ⟨_, rfl, rfl⟩
        | some r =>
          rw [on_request_cb_some s req i e f r hf hse hr]
          exact ⟨_, rfl, rfl⟩
      | raises =>
        rw [on_request_cb_raises s req i e f hf hse hr] at h
        simp [isPropagated] at h
    | seq rs =>
      cases rs with
      | nil =>
        rw [on_request_seq_nil s req i e hf hse] at h
        simp [isPropagated] at h
      | cons r rest =>
        rw [on_request_seq_cons s req i e r rest hf hse]
        exact ⟨_, rfl, rfl⟩

/-- A dispatch whose outcome is a propagated resolution failure leaves
the whole mock state — registry and recorder — unchanged. -/
theorem dispatch_propagated_frame (s : MockState) (req : PreparedRequest)
    (h : isPropagated (_on_request s req).2 = true) :
    (_on_request s req).1 = s := by
  cases hf : findFirstMatch s.urls req with
  | none =>
    rw [on_request_no_match s req hf] at h
    simp [isPropagated] at h
  | some p =>
    obtain ⟨i, e⟩ := p
    cases hse : e.side_effect with
    | none =>
      rw [on_request_fixed s req i e hf hse] at h
      simp [isPropagated] at h
    | callback f =>
      cases hr : f (Request._from_prepared_request req) with
      | ret ro =>
        cases ro with
        | none =>
          rw [on_request_cb_none s req i e f hf hse hr] at h
          simp [isPropagated] at h
        | some r =>
          rw [on_request_cb_some s req i e f r hf hse hr] at h
          simp [isPropagated] at h
      | raises =>
        rw [on_request_cb_raises s req i e f hf hse hr]
    | seq rs =>
      cases rs with
      | nil =>
        rw [on_request_seq_nil s req i e hf hse]
      | cons r rest =>
        rw [on_request_seq_cons s req i e r rest hf hse] at h
        simp [isPropagated] at h

/-! ### The claims -/

/-- C1: the matcher scans the registry in registration order and
returns the first expectation whose loop-body condition (method equal
and URL pattern match) holds — it equals `List.find?` over the match
condition, so the result is a deterministic function of registry state
and request; in particular, with two overlapping expectations
registered in order A then B (any non-matching entries before them), a
matching request resolves via A. -/
theorem C1_first_match_wins (req : PreparedRequest) :
    (∀ urls : List Expectation,
        _find_match urls req = urls.find? (fun e => expMatches e req)) ∧
    (∀ (pre post : List Expectation) (A : Expectation),
        (∀ e ∈ pre, expMatches e req = false) → expMatches A req = true →
        _find_match (pre ++ A :: post) req = Option.some A) := by
  constructor
  · intro urls
    induction urls with
    | nil => rfl
    | cons m rest ih =>
      by_cases h : expMatches m req
      · simp [_find_match, findFirstMatch, h]
      · have h' : expMatches m req = false := by simpa using h
        have hstep : _find_match (m :: rest) req = _find_match rest req := by
          cases hrec : findFirstMatch rest req with
          | none => simp [_find_match, findFirstMatch, h', hrec]
          | some p => simp [_find_match, findFirstMatch, h', hrec]
        rw [hstep, ih, List.find?_cons_of_neg _ (by simpa using h')]
  · intro pre post A hpre hA
    simp [_find_match, findFirstMatch_append_first pre post A req hpre hA]

/-- C1 witness: with a non-matching expectation followed by two
overlapping expectations A then B, the matcher resolves the request
via A. -/
theorem C1_witness : _find_match [eC1pre, eC1A, eC1B] reqC1 = Option.some eC1A :=
  (C1_first_match_wins reqC1).2 [eC1pre] [eC1B] eC1A
    (by intro e he; simp only [List.mem_singleton] at he; subst he; rfl)
    rfl

/-- C2: when no registered expectation matches the request, dispatch
appends exactly one call holding the connection-failure value, fails
with the ConnectionError-kind signal, and the failure message contains
the request's URL.  The `Except.error` outcome is terminal: no retry
exists in the dispatch function. -/
theorem C2_no_match_dispatch (s : MockState) (req : PreparedRequest)
    (h : ∀ e ∈ s.urls, expMatches e req = false) :
    _on_request s req =
      ({ s with calls := s.calls ++
          [{ request := req, response := CallResult.err ("Connection refused: " ++ req.url) }] },
       Except.error (PyErr.connectionError ("Connection refused: " ++ req.url))) ∧
    req.url.toList <:+: ("Connection refused: " ++ req.url).toList := by
  refine ⟨on_request_no_match s req ((findFirstMatch_eq_none_iff s.urls req).mpr h), ?_⟩
  refine ⟨"Connection refused: ".toList, [], ?_⟩
  simp [String.toList, String.data_append]

/-- C2 witness: dispatching against an empty registry records the
failure call and raises the connection error for the request URL. -/
theorem C2_witness :
    _on_request emptyMock reqC2 =
      ({ emptyMock with calls := emptyMock.calls ++
          [{ request := reqC2, response := CallResult.err ("Connection refused: " ++ reqC2.url) }] },
       Except.error (PyErr.connectionError ("Connection refused: " ++ reqC2.url))) ∧
    reqC2.url.toList <:+: ("Connection refused: " ++ reqC2.url).toList :=
  C2_no_match_dispatch emptyMock reqC2 (by intro e he; simp [emptyMock] at he)

/-- C3: for an expectation and a request with equal methods, the match
condition holds in query-string mode iff the expectation's url pattern,
taken literally, is an initial segment of the request's full URL, and
otherwise iff the pattern equals the request URL with everything from
the first question mark onward removed. -/
theorem C3_url_match_rule (e : Expectation) (req : PreparedRequest)
    (hm : req.method = e.method) :
    (e.match_querystring = true →
        (expMatches e req = true ↔ e.url.toList <+: req.url.toList)) ∧
    (e.match_querystring = false →
        (expMatches e req = true ↔
          e.url.toList = req.url.toList.takeWhile (fun c => c != '?'))) := by
  constructor
  · intro hq
    simp [expMatches, hq, hm, reMatchEscaped, matchLiteralAnchored_iff]
  · intro hq
    simp [expMatches, hq, hm, stripQS, splitHeadChars_eq_takeWhile,
      String.ext_iff, String.toList]

/-- C3 witness: a query-string-matching expectation matches a request
whose full URL extends the pattern. -/
theorem C3_witness :
    expMatches eC3 reqC3 = true ↔ eC3.url.toList <+: reqC3.url.toList :=
  (C3_url_match_rule eC3 reqC3 rfl).1 rfl

/-- C4: with an expectation whose side_effect is the finite sequence
rs registered alone, dispatching one matching request per element and
then once more yields exactly the elements of rs, in order, as built
responses, followed by the propagated sequence-exhaustion signal. -/
theorem C4_sequence_in_order (rs : List Response) (e : Expectation)
    (reqs : List PreparedRequest) (calls : List Call) (hook : Bool)
    (hse : e.side_effect = SideEffect.seq rs)
    (hlen : reqs.length = rs.length + 1)
    (hmatch : ∀ r ∈ reqs, expMatches e r = true) :
    (runDispatches ⟨[e], calls, hook⟩ reqs).2 =
      rs.map (fun r => Except.ok (Response._as_http_response r)) ++
        [Except.error PyErr.stopIteration] := by
  induction rs generalizing e reqs calls with
  | nil =>
    cases reqs with
    | nil => simp at hlen
    | cons q qs =>
      cases qs with
      | nil =>
        have hq : expMatches e q = true := hmatch q (by simp)
        have hf : findFirstMatch [e] q = Option.some (0, e) := by
          simp [findFirstMatch, hq]
        have hnil := on_request_seq_nil ⟨[e], calls, hook⟩ q 0 e hf hse
        simp [runDispatches, hnil]
      | cons q' qs' => simp at hlen
  | cons r rest ih =>
    cases reqs with
    | nil => simp at hlen
    | cons q qs =>
      have hq : expMatches e q = true := hmatch q (by simp)
      have hf : findFirstMatch [e] q = Option.some (0, e) := by
        simp [findFirstMatch, hq]
      have hstep := on_request_seq_cons ⟨[e], calls, hook⟩ q 0 e r rest hf hse
      have hmatch' : ∀ x ∈ qs,
          expMatches { e with side_effect := SideEffect.seq rest } x = true := by
        intro x hx
        rw [expMatches_update_side_effect]
        exact hmatch x (by simp [hx])
      have hlen' : qs.length = rest.length + 1 := by simpa using hlen
      have hih := ih { e with side_effect := SideEffect.seq rest } qs
        (calls ++ [{ request := q, response := CallResult.resp (Response._as_http_response r) }])
        rfl hlen' hmatch'
      simp only [runDispatches, hstep]
      simpa [List.set] using hih

/-- C4 witness: side_effect [respA, respB] yields respA then respB,
and the third dispatch fails with the exhaustion signal. -/
theorem C4_witness :
    (runDispatches ⟨[eC4], [], false⟩ [reqC4, reqC4, reqC4]).2 =
      [respA, respB].map (fun r => Except.ok (Response._as_http_response r)) ++
        [Except.error PyErr.stopIteration] :=
  C4_sequence_in_order [respA, respB] eC4 [reqC4, reqC4, reqC4] [] false rfl rfl (by decide)

/-- C5: `activate` runs the body after `start`, and on every exit path
— the body's outcome being a normal return or a raised failure — runs
`stop` then `reset` before propagating the body's outcome unchanged:
afterwards the registry and the recorder are empty and the hook is
uninstalled. -/
theorem C5_activate_cleanup {ε α : Type} (func : MockState → MockState × Except ε α)
    (s : MockState) :
    (activate func s).1.urls = [] ∧ (activate func s).1.calls = [] ∧
    (activate func s).1.hookInstalled = false ∧
    (activate func s).2 = (func (start s)).2 :=
  ⟨rfl, rfl, rfl, rfl⟩

/-- C6 counterexample: the claim's converse direction fails on the
code.  Registering GET http://x.test/ stores the pattern unchanged
(three '/' characters, so no normalization), and a request whose URL is
literally http://x.test matches nothing: request URLs are never
normalized by the matcher. -/
theorem C6_counterexample :
    _find_match (add emptyMock "GET" "http://x.test/" false SideEffect.none respDefault).urls
      ⟨"GET", "http://x.test", [], ""⟩ = Option.none := rfl

/-- C6 amended: a URL pattern registered with exactly two '/'
characters is normalized at registration by appending a trailing slash
(or by replacing the first '?' by '/?' when query-string matching is
enabled); consequently a pattern registered as a bare host without a
query string matches a request for the same host with a trailing
slash.  The converse direction of the original claim does not hold in
the matcher (see the counterexample). -/
theorem C6_amended_normalization (s : MockState) (method url : String) (mq : Bool)
    (se : SideEffect) (r : Response) (h2 : url.toList.count '/' = 2) :
    ((add s method url mq se r).urls = s.urls ++
        [{ url := if mq then replaceFirst url '?' "/?" else url ++ "/"
           method := method
           match_querystring := mq
           side_effect := se
           response := r }]) ∧
    ('?' ∉ url.toList →
      expMatches
        { url := url ++ "/", method := method, match_querystring := false,
          side_effect := se, response := r }
        { method := method, url := url ++ "/", headers := [], body := "" } = true) := by
  constructor
  · have h2' : url.data.count '/' = 2 := h2
    have hcondL : (url.toList.count '/' == 2) = true := by simp [h2']
    have hcondD : (url.data.count '/' == 2) = true := hcondL
    simp [add, hcondL, hcondD]
  · intro hq
    have hdata : (url ++ "/").toList = url.toList ++ ['/'] := by
      simp [String.toList, String.data_append]
    have hnq : '?' ∉ (url ++ "/").toList := by
      rw [hdata]
      simp [show '?' ∉ url.data from hq]
    have hstrip : stripQS (url ++ "/") = url ++ "/" := by
      rw [stripQS, splitHeadChars_of_not_mem _ _ hnq]
      exact string_mk_toList (url ++ "/")
    simp [expMatches, hstrip]

/-- C6 witness: registering the bare host http://x.test stores the
normalized pattern http://x.test/, and that stored pattern matches a
request for http://x.test/. -/
theorem C6_witness :
    ((add emptyMock "GET" "http://x.test" false SideEffect.none respDefault).urls =
        emptyMock.urls ++
        [{ url := if false then replaceFirst "http://x.test" '?' "/?" else "http://x.test" ++ "/"
           method := "GET"
           match_querystring := false
           side_effect := SideEffect.none
           response := respDefault }]) ∧
    ('?' ∉ "http://x.test".toList →
      expMatches
        { url := "http://x.test" ++ "/", method := "GET", match_querystring := false,
          side_effect := SideEffect.none, response := respDefault }
        { method := "GET", url := "http://x.test" ++ "/", headers := [], body := "" } = true) :=
  C6_amended_normalization emptyMock "GET" "http://x.test" false SideEffect.none respDefault
    (by decide)

/-- C7 counterexample: a single dispatch that matches an expectation
whose response sequence is exhausted fails with the propagated
exhaustion signal and appends no Call at all, so one dispatch leaves
the recorder with zero entries, not one. -/
theorem C7_counterexample :
    (runDispatches ⟨[eC7], [], false⟩ [reqC7]).2 = [Except.error PyErr.stopIteration] ∧
    (runDispatches ⟨[eC7], [], false⟩ [reqC7]).1.calls = [] :=
  ⟨rfl, rfl⟩

/-- C7 amended: for every sequence of dispatches none of which fails
with a propagated resolution failure (sequence exhaustion or a raising
callback), the recorder afterwards holds the old entries followed by
exactly one new Call per dispatch, in dispatch order, the i-th new
entry carrying the i-th dispatched request; entries are only ever
appended. -/
theorem C7_amended_recorder (s : MockState) (reqs : List PreparedRequest)
    (h : ∀ r ∈ (runDispatches s reqs).2, isPropagated r = false) :
    ∃ newCalls : List Call,
      (runDispatches s reqs).1.calls = s.calls ++ newCalls ∧
      newCalls.map Call.request = reqs := by
  induction reqs generalizing s with
  | nil => exact ⟨[], by simp [runDispatches], rfl⟩
  | cons q qs ih =>
    have h1 : isPropagated (_on_request s q).2 = false := by
      apply h
      show (_on_request s q).2 ∈ (runDispatches s (q :: qs)).2
      simp [runDispatches]
    have hrest : ∀ r ∈ (runDispatches (_on_request s q).1 qs).2, isPropagated r = false := by
      intro r hr
      apply h
      show r ∈ (runDispatches s (q :: qs)).2
      simp [runDispatches, hr]
    obtain ⟨c, hc, hcq⟩ := dispatch_records s q h1
    obtain ⟨ncs, hncs, hmap⟩ := ih (_on_request s q).1 hrest
    refine ⟨c :: ncs, ?_, ?_⟩
    · have hfst : (runDispatches s (q :: qs)).1 = (runDispatches (_on_request s q).1 qs).1 := rfl
      rw [hfst, hncs, hc]
      simp
    · simp [hmap, hcq]

/-- C7 witness: one dispatch that fails on the no-match path still
appends exactly one Call carrying the dispatched request. -/
theorem C7_witness :
    ∃ newCalls : List Call,
      (runDispatches emptyMock [reqC7]).1.calls = emptyMock.calls ++ newCalls ∧
      newCalls.map Call.request = [reqC7] :=
  C7_amended_recorder emptyMock [reqC7] (by decide)

/-- C8: when the matched expectation is backed by a fixed response
(no side_effect), three dispatches of the same request yield three
structurally identical built responses and leave the registry — the
stored response included — unchanged: resolution has no side effect on
the stored response. -/
theorem C8_fixed_idempotent (s : MockState) (req : PreparedRequest) (i : Nat)
    (e : Expectation)
    (hf : findFirstMatch s.urls req = Option.some (i, e))
    (hn : e.side_effect = SideEffect.none) :
    runDispatches s [req, req, req] =
      ({ s with calls := s.calls ++
          [{ request := req, response := CallResult.resp (Response._as_http_response e.response) },
           { request := req, response := CallResult.resp (Response._as_http_response e.response) },
           { request := req, response := CallResult.resp (Response._as_http_response e.response) }] },
       [Except.ok (Response._as_http_response e.response),
        Except.ok (Response._as_http_response e.response),
        Except.ok (Response._as_http_response e.response)]) := by
  have step : ∀ cs : List Call,
      _on_request { s with calls := cs } req =
        ({ s with calls := cs ++
            [{ request := req, response := CallResult.resp (Response._as_http_response e.response) }] },
         Except.ok (Response._as_http_response e.response)) := fun cs =>
    on_request_fixed { s with calls := cs } req i e hf hn
  have hself : s = { s with calls := s.calls } := rfl
  rw [hself]
  simp [runDispatches, step, List.append_assoc]

/-- C8 witness: three dispatches against a fixed-response expectation
yield three identical responses and an unchanged registry. -/
theorem C8_witness :
    runDispatches ⟨[eC8], [], false⟩ [reqC8, reqC8, reqC8] =
      ({ (⟨[eC8], [], false⟩ : MockState) with calls := ([] : List Call) ++
          [{ request := reqC8, response := CallResult.resp (Response._as_http_response eC8.response) },
           { request := reqC8, response := CallResult.resp (Response._as_http_response eC8.response) },
           { request := reqC8, response := CallResult.resp (Response._as_http_response eC8.response) }] },
       [Except.ok (Response._as_http_response eC8.response),
        Except.ok (Response._as_http_response eC8.response),
        Except.ok (Response._as_http_response eC8.response)]) :=
  C8_fixed_idempotent ⟨[eC8], [], false⟩ reqC8 0 eC8 rfl rfl

/-- C9: when the matched expectation's callback returns no response,
dispatch behaves exactly as the no-match path: it appends the
(request, connection-failure) Call and fails with the ConnectionError
signal carrying the request URL, not with a callback-specific
failure. -/
theorem C9_callback_none_as_no_match (s : MockState) (req : PreparedRequest) (i : Nat)
    (e : Expectation) (f : Request → CbResult)
    (hf : findFirstMatch s.urls req = Option.some (i, e))
    (hc : e.side_effect = SideEffect.callback f)
    (hr : f (Request._from_prepared_request req) = CbResult.ret Option.none) :
    _on_request s req =
      ({ s with calls := s.calls ++
          [{ request := req, response := CallResult.err ("Connection refused: " ++ req.url) }] },
       Except.error (PyErr.connectionError ("Connection refused: " ++ req.url))) :=
  on_request_cb_none s req i e f hf hc hr

/-- C9 witness: a matched callback returning none records the failure
Call and raises the connection error for the request URL. -/
theorem C9_witness :
    _on_request ⟨[eC9], [], false⟩ reqC9 =
      ({ (⟨[eC9], [], false⟩ : MockState) with calls := ([] : List Call) ++
          [{ request := reqC9, response := CallResult.err ("Connection refused: " ++ reqC9.url) }] },
       Except.error (PyErr.connectionError ("Connection refused: " ++ reqC9.url))) :=
  C9_callback_none_as_no_match ⟨[eC9], [], false⟩ reqC9 0 eC9 fC9 rfl rfl rfl

/-- C10: a dispatch that fails with a propagated resolution failure
(sequence exhaustion or a raising callback) leaves the whole mock
state — recorder and registry — unchanged, and a dispatch that fails
with the connection-failure signal is exactly the path that appends
one failure Call. -/
theorem C10_propagated_frame (s : MockState) (req : PreparedRequest) :
    (((_on_request s req).2 = Except.error PyErr.stopIteration ∨
      (_on_request s req).2 = Except.error PyErr.callbackRaised) →
        (_on_request s req).1 = s) ∧
    (∀ msg, (_on_request s req).2 = Except.error (PyErr.connectionError msg) →
        (_on_request s req).1.calls =
          s.calls ++ [{ request := req, response := CallResult.err msg }]) := by
  constructor
  · intro h
    apply dispatch_propagated_frame
    rcases h with h | h <;> rw [h] <;> rfl
  · intro msg hmsg
    cases hfm : findFirstMatch s.urls req with
    | none =>
      have heq := on_request_no_match s req hfm
      rw [heq] at hmsg ⊢
      simp at hmsg
      rw [hmsg]
    | some p =>
      obtain ⟨i, e⟩ := p
      cases hse : e.side_effect with
      | none =>
        have heq := on_request_fixed s req i e hfm hse
        rw [heq] at hmsg
        simp at hmsg
      | seq rs =>
        cases rs with
        | nil =>
          have heq := on_request_seq_nil s req i e hfm hse
          rw [heq] at hmsg
          simp at hmsg
        | cons r rest =>
          have heq := on_request_seq_cons s req i e r rest hfm hse
          rw [heq] at hmsg
          simp at hmsg
      | callback f =>
        cases hr : f (Request._from_prepared_request req) with
        | raises =>
          have heq := on_request_cb_raises s req i e f hfm hse hr
          rw [heq] at hmsg
          simp at hmsg
        | ret ro =>
          cases ro with
          | some r =>
            have heq := on_request_cb_some s req i e f r hfm hse hr
            rw [heq] at hmsg
            simp at hmsg
          | none =>
            have heq := on_request_cb_none s req i e f hfm hse hr
            rw [heq] at hmsg ⊢
            simp at hmsg
            rw [hmsg]

/-- C10 witness: a dispatch failing on an exhausted response sequence
leaves the mock state unchanged. -/
theorem C10_witness :
    (_on_request ⟨[eC7], [], false⟩ reqC7).1 = ⟨[eC7], [], false⟩ :=
  (C10_propagated_frame ⟨[eC7], [], false⟩ reqC7).1 (Or.inl rfl)

end Responses
